import Mathlib

/-
  Verification of the problem-inventory allocation and progress-tracking
  client of the mondai-db-api-trainer repository.

  The definitions below are a shallow embedding of the TypeScript source:
  - src/frontend/src/entities/problem/types.ts (data shapes, api callers)
  - src/frontend/src/shared/api/client.ts (the api client; clearProblemCache,
    isCsrfError, request, apiClient)
  - src/frontend/src/pages/Solve/Solve.tsx (parseDifficulty, fetchProblem,
    handleSubmit)
  - src/frontend/src/pages/Result/Result.tsx (handleComplete, fetchModelAnswers,
    getGradeEmoji)
  - src/frontend/src/pages/History/History.tsx (getGradeEmoji with null)
  The backend (Django) is not part of the source tree; the completion
  finalizer and the grader are modelled from the specification where a claim
  needs them, and each such definition says so in its doc comment.
-/

namespace Mondai

/-- JavaScript String.startsWith, embedded over the character lists of the
two strings. -/
def jsStartsWith (s p : String) : Bool :=
  p.data.isPrefixOf s.data

/-- JavaScript falsiness of a string | undefined value: undefined and the
empty string are falsy, every other string is truthy. -/
def jsFalsyStr : Option String → Bool
  | none => true
  | some s => s = ""

/-- JavaScript truthiness of a number | null | undefined value: null,
undefined and 0 are falsy (the embedding uses Nat for ids, so 0 is the one
falsy number). -/
def jsTruthyNum : Option Nat → Bool
  | none => false
  | some n => n != 0

/-! ## Data model, from src/frontend/src/entities/problem/types.ts -/

/-- Problem, from types.ts: problem_id and problem_group_id are absent for
guests, hence optional. -/
structure Problem where
  problem_id : Option Nat
  problem_group_id : Option Nat
  problem_type : String
  order_index : Nat
  problem_body : String
deriving DecidableEq, Repr

/-- ProblemGroup, from types.ts. -/
structure ProblemGroup where
  problem_group_id : Option Nat
  title : String
  description : String
  difficulty : String
  app_scale : String
  mode : String
  created_at : Option String
deriving DecidableEq, Repr

/-- GenerateProblemResponse, from types.ts: kind is persisted or guest,
guest_token is present only for guests. -/
structure GenerateProblemResponse where
  kind : String
  guest_token : Option String
  problem_group : ProblemGroup
  problems : List Problem
deriving DecidableEq, Repr

/-- The field names of the GenerateProblemResponse interface, in source
order, as written in types.ts. -/
def generateProblemResponseFields : List String :=
  ["kind", "guest_token", "problem_group", "problems"]

/-- The field names of the Problem interface, in source order. -/
def problemFields : List String :=
  ["problem_id", "problem_group_id", "problem_type", "order_index", "problem_body"]

/-- The field names of the ProblemGroup interface, in source order. -/
def problemGroupFields : List String :=
  ["problem_group_id", "title", "description", "difficulty", "app_scale", "mode", "created_at"]

/-- ProblemGroupDetailResponse as used by Solve.tsx (detailResponse
.problem_group and detailResponse.problems). -/
structure ProblemGroupDetailResponse where
  problem_group : ProblemGroup
  problems : List Problem
deriving DecidableEq, Repr

/-- The authenticated user shape, from the user types file: the field
current_problem_group_id is number | null | undefined. -/
structure JsUser where
  user_id : Nat
  current_problem_group_id : Option Nat
deriving DecidableEq, Repr

/-- A record of the model-answers response consumed by fetchModelAnswers in
Result.tsx. -/
structure ModelAnswerRec where
  model_answer : String
deriving DecidableEq, Repr

/-- The model-answers response shape consumed by fetchModelAnswers in
Result.tsx. -/
structure ModelAnswersResponse where
  model_answers : List ModelAnswerRec
deriving DecidableEq, Repr

/-! ## Spec-modelled back end core

The Django back end is not in the source tree; only its client callers are
(completeProblemGroup and gradeAnswers in the problem api file). The
completion finalizer and the grader are therefore modelled from the
specification. -/

/-- The durable and per-requester state of the core: Attempt rows keyed by
(group_id, user_id), the requester ProgressPointer, and a log of submitted
answers kept by grading. -/
structure CoreState where
  attempts : List (Nat × Nat)
  pointer : Option Nat
  answersLog : List String
deriving DecidableEq, Repr

/-- Outcome of the completion finalizer. -/
inductive CompleteResult where
  | ack
  | noActiveClaim
deriving DecidableEq, Repr

/-- Modelled from the spec: the back end Completion Finalizer (no back end
code is under the source tree; the client caller is completeProblemGroup in
the problem api file). Per sections 4.4, 7 and 8 of the spec the upsert is
an idempotent insert-or-ignore keyed by (group_id, user_id): a repeat call
for an already recorded pair acknowledges without inserting; a first call
validates the claim against the ProgressPointer, inserts the Attempt row
and clears the pointer; otherwise it fails with NoActiveClaim. -/
def complete (s : CoreState) (userId groupId : Nat) : CompleteResult × CoreState :=
  if (groupId, userId) ∈ s.attempts then
    (CompleteResult.ack, s)
  else if s.pointer = some groupId then
    (CompleteResult.ack,
      { s with attempts := (groupId, userId) :: s.attempts, pointer := none })
  else
    (CompleteResult.noActiveClaim, s)

/-- Modelled from the spec: the back end grading operation (no back end code
is under the source tree; the client caller is gradeAnswers in the problem
api file). Per sections 4.4 and 6 of the spec grading is purely advisory:
it returns a ternary grade per answer via an opaque grader and may record
the submitted answers, but it never reads or writes Attempt rows or the
ProgressPointer. -/
def gradeAnswersOp (grader : String → Fin 3) (s : CoreState) (answers : List String) :
    List (Fin 3) × CoreState :=
  (answers.map grader, { s with answersLog := s.answersLog ++ answers })

/-- The state transformer of one grading call, used to iterate grading. -/
def gradeStep (grader : String → Fin 3) (answers : List String) (s : CoreState) : CoreState :=
  (gradeAnswersOp grader s answers).2

/-! ## The api client, from the shared api client file -/

/-- A sessionStorage snapshot: an association of keys to values. -/
abbrev Storage : Type := List (String × String)

/-- sessionStorage.removeItem: drops every entry stored under the key. -/
def removeItem (store : Storage) (k : String) : Storage :=
  store.filter (fun kv => kv.1 != k)

/-- clearProblemCache from the api client: iterates over the snapshot of
Object.keys(sessionStorage) and removes each key that starts with
mondai_problem_. -/
def clearProblemCache (store : Storage) : Storage :=
  (store.map Prod.fst).foldl
    (fun s k => if jsStartsWith k "mondai_problem_" then removeItem s k else s) store

/-- The error object of the unified ApiResponse envelope (details dropped).
-/
structure ApiErrObj where
  code : String
  message : String
deriving DecidableEq, Repr

/-- What one fetch of the endpoint can come back as: 204 No Content, a
non-JSON response, a JSON ApiResponse envelope, or a network error thrown
by fetch itself. -/
inductive FetchResp where
  | noContent
  | nonJson (status : Nat) (body : String)
  | jsonApi (status : Nat) (data : Option String) (error : Option ApiErrObj)
  | networkError
deriving DecidableEq, Repr

/-- The outcome the request function delivers to its caller: resolved data,
or a thrown ApiError with code, message and the HTTP status when one was
seen. -/
inductive ReqOutcome where
  | success (data : Option String)
  | apiError (code : String) (message : String) (status : Option Nat)
deriving DecidableEq, Repr

/-- isCsrfError from the api client: only a 403 can be a CSRF error; the
two explicit CSRF codes are, a missing (falsy) code or UNKNOWN_ERROR is
treated as one, and every other explicit code is not. -/
def isCsrfError (status : Nat) (errorCode : Option String) : Bool :=
  if status != 403 then
    false
  else if errorCode == some "CSRF_TOKEN_MISSING" || errorCode == some "CSRF_TOKEN_INVALID" then
    true
  else if jsFalsyStr errorCode || errorCode == some "UNKNOWN_ERROR" then
    true
  else
    false

/-- JavaScript response.ok: status in the 200 to 299 range. -/
def respOk (status : Nat) : Bool :=
  200 ≤ status && status < 300

/-- The JavaScript a || b fallback on strings: the default is used when the
first operand is falsy (empty). -/
def strOrElse (s d : String) : String :=
  if s = "" then d else s

/-- What one attempt of the request body does, before any retry is
followed: either it settles with an outcome, or it signals the CSRF retry
path. Mirrors the try block of the request function for a response. -/
inductive AttemptResult where
  | done (o : ReqOutcome)
  | retry
deriving DecidableEq, Repr

/-- One pass of the request function over a fetch response, with the
isRetry flag as in the source: 204 resolves to null data; a non-JSON 403
retries when not already a retry, else throws INVALID_RESPONSE; a JSON
envelope that is not ok or carries an error retries when not already a
retry and isCsrfError holds, else throws an ApiError with the envelope
code and message (falling back to UNKNOWN_ERROR and a default message);
otherwise the data resolves. A network error throws NETWORK_ERROR. -/
def attempt (resp : FetchResp) (isRetry : Bool) : AttemptResult :=
  match resp with
  | FetchResp.noContent => AttemptResult.done (ReqOutcome.success none)
  | FetchResp.networkError =>
      AttemptResult.done (ReqOutcome.apiError "NETWORK_ERROR" "Network error occurred" none)
  | FetchResp.nonJson status _ =>
      if status == 403 && !isRetry then
        AttemptResult.retry
      else
        AttemptResult.done (ReqOutcome.apiError "INVALID_RESPONSE"
          "Expected JSON response but got non JSON" (some status))
  | FetchResp.jsonApi status data error =>
      if !respOk status || error.isSome then
        if !isRetry && isCsrfError status (error.map ApiErrObj.code) then
          AttemptResult.retry
        else
          AttemptResult.done (ReqOutcome.apiError
            (strOrElse ((error.map ApiErrObj.code).getD "") "UNKNOWN_ERROR")
            (strOrElse ((error.map ApiErrObj.message).getD "") "An unknown error occurred")
            (some status))
      else
        AttemptResult.done (ReqOutcome.success data)

/-- The environment of one caller-initiated request: whether the method
needs a CSRF token (POST, PUT, DELETE, PATCH), whether the two possible
CSRF token fetches resolve, and the response of each fetch of the
endpoint. -/
structure ReqEnv where
  needsCsrf : Bool
  preCsrfOk : Bool
  retryCsrfOk : Bool
  resp1 : FetchResp
  resp2 : FetchResp
deriving DecidableEq, Repr

/-- The request function of the api client, returning its outcome together
with the number of fetches of the endpoint it issued. The initial call has
isRetry false; the one possible recursive call passes isRetry true, and a
pass with isRetry true never signals retry again (the third arm is
unreachable, as proved below). A failing CSRF token fetch throws
CSRF_FETCH_FAILED through the catch clause. -/
def request (e : ReqEnv) : ReqOutcome × Nat :=
  if e.needsCsrf && !e.preCsrfOk then
    (ReqOutcome.apiError "CSRF_FETCH_FAILED" "Failed to fetch CSRF token" none, 0)
  else
    match attempt e.resp1 false with
    | AttemptResult.done o => (o, 1)
    | AttemptResult.retry =>
        if !e.retryCsrfOk then
          (ReqOutcome.apiError "CSRF_FETCH_FAILED" "Failed to fetch CSRF token" none, 1)
        else
          match attempt e.resp2 true with
          | AttemptResult.done o => (o, 2)
          | AttemptResult.retry => (ReqOutcome.apiError "UNREACHABLE" "" none, 3)

/-! ## Page logic, from Solve.tsx, Result.tsx and History.tsx -/

/-- parseDifficulty from Solve.tsx: returns the input when it is one of the
three difficulty literals, and easy otherwise (null included). -/
def parseDifficulty (value : Option String) : String :=
  match value with
  | some v => if v == "easy" || v == "medium" || v == "hard" then v else "easy"
  | none => "easy"

/-- The endpoints the embedded client actions can call. -/
inductive Endpoint where
  | generateEp
  | groupDetailEp
  | gradeEp
  | completeEp
  | modelAnswersEp
  | authMeEp
deriving DecidableEq, Repr

/-- The optional chain user?.current_problem_group_id. -/
def userCurrentGroup (user : Option JsUser) : Option Nat :=
  user.bind (fun u => u.current_problem_group_id)

/-- How the catch branch of fetchProblem in Solve.tsx resolves: either the
detail of the already claimed group is presented as the active problem, or
the error is surfaced. -/
inductive FetchOutcome where
  | presented (resp : GenerateProblemResponse) (fetchedGroup : Nat) (start : Bool)
  | surfaced (status : Option Nat)
deriving DecidableEq, Repr

/-- The conversion Solve.tsx applies to a resumed detail response: a
persisted GenerateProblemResponse without a guest token. -/
def convertDetail (d : ProblemGroupDetailResponse) : GenerateProblemResponse :=
  { kind := "persisted", guest_token := none,
    problem_group := d.problem_group, problems := d.problems }

/-- The catch branch of fetchProblem in Solve.tsx around the
generateProblem call: when the ApiError status is 409 and
user?.current_problem_group_id is truthy, the client fetches that group
with getProblemGroupDetail(id, start true), converts it and presents it;
in every other case the error is rethrown and surfaced. -/
def fetchProblemOnGenError (status : Option Nat) (user : Option JsUser)
    (detailOf : Nat → ProblemGroupDetailResponse) : FetchOutcome :=
  match status, userCurrentGroup user with
  | some 409, some g =>
      if g != 0 then
        FetchOutcome.presented (convertDetail (detailOf g)) g true
      else
        FetchOutcome.surfaced status
  | _, _ => FetchOutcome.surfaced status

/-- The endpoint calls handleSubmit in Solve.tsx issues: nothing without
problem data or with an unanswered problem (early returns), otherwise
exactly one call of the grade endpoint. -/
def handleSubmitCalls (hasProblemData allAnswered : Bool) : List Endpoint :=
  if hasProblemData then
    if allAnswered then [Endpoint.gradeEp] else []
  else []

/-- Where handleSubmit navigates: to the result page exactly when the data
is present, every problem is answered and grading resolves. -/
def handleSubmitNav (hasProblemData allAnswered gradeOk : Bool) : Option String :=
  if hasProblemData && allAnswered && gradeOk then some "/result" else none

/-- The client-side state handleComplete in Result.tsx acts on: the
sessionStorage snapshot, the guest problem group id of the auth context,
where the page navigated, whether refreshUser was invoked and whether an
alert was shown. -/
structure ClientState where
  storage : Storage
  guestProblemGroupId : Option Nat
  navigatedTo : Option String
  refreshCalled : Bool
  alerted : Bool
deriving DecidableEq, Repr

/-- The sessionStorage key of the current problem for a requester, as built
in Solve.tsx and Result.tsx. -/
def currentCacheKey (isAuth : Bool) (userId : Nat) : String :=
  "mondai_problem_current_" ++ (if isAuth then "user_" ++ toString userId else "guest")

/-- handleComplete from Result.tsx, with the resolution of the
completeProblemGroup call and of refreshUser as inputs: on resolution the
cached current-problem entry is removed, then a guest has the guest group
id cleared while a user has refreshUser invoked, and the page navigates
home; any rejection falls to the catch clause, which only alerts. -/
def handleComplete (st : ClientState) (isAuth : Bool) (userId : Nat)
    (completeOk refreshOk : Bool) : ClientState :=
  if completeOk then
    let st1 := { st with storage := removeItem st.storage (currentCacheKey isAuth userId) }
    if isAuth then
      let st2 := { st1 with refreshCalled := true }
      if refreshOk then
        { st2 with navigatedTo := some "/" }
      else
        { st2 with alerted := true }
    else
      { st1 with guestProblemGroupId := none, navigatedTo := some "/" }
  else
    { st with alerted := true }

/-- The endpoint calls handleComplete issues: the complete endpoint, then,
when completion resolves for an authenticated user, the auth refresh. -/
def handleCompleteCalls (isAuth completeOk : Bool) : List Endpoint :=
  Endpoint.completeEp :: (if completeOk && isAuth then [Endpoint.authMeEp] else [])

/-- The per-problem model-answer fetches of fetchModelAnswers in
Result.tsx: one getModelAnswers call per sub-problem, keyed by its
problem_id. -/
def fetchModelAnswersCalls (problems : List Problem) : List (Endpoint × Option Nat) :=
  problems.map (fun p => (Endpoint.modelAnswersEp, p.problem_id))

/-- The latest model answer fetchModelAnswers extracts from one response:
the last element of model_answers, with the empty string as the nullish
fallback. -/
def latestModelAnswer (r : ModelAnswersResponse) : String :=
  match r.model_answers.getLast? with
  | some m => m.model_answer
  | none => ""

/-- The embedded client actions that issue api calls on the solve and
result pages. -/
inductive ClientAction where
  | submit (hasProblemData allAnswered : Bool)
  | finish (isAuth completeOk : Bool)
  | fetchProb (status : Option Nat) (user : Option JsUser)
deriving DecidableEq, Repr

/-- The endpoint calls of the catch branch of fetchProblem: the failed
generate call itself, plus the detail call on the resume path. -/
def fetchProblemCalls (status : Option Nat) (user : Option JsUser) : List Endpoint :=
  Endpoint.generateEp ::
    (match status, userCurrentGroup user with
     | some 409, some g => if g != 0 then [Endpoint.groupDetailEp] else []
     | _, _ => [])

/-- The calls each embedded client action issues. -/
def actionCalls : ClientAction → List Endpoint
  | ClientAction.submit h a => handleSubmitCalls h a
  | ClientAction.finish auth ok => handleCompleteCalls auth ok
  | ClientAction.fetchProb st u => fetchProblemCalls st u

/-- getGradeEmoji from Result.tsx: a switch on the numeric grade with a
question mark default. -/
def getGradeEmoji (grade : Int) : String :=
  if grade == 2 then "◯"
  else if grade == 1 then "△"
  else if grade == 0 then "×"
  else "?"

/-- getGradeEmoji from History.tsx: the grade may be null there, and the
default branch renders a dash. -/
def getGradeEmojiHist (grade : Option Int) : String :=
  if grade == some 2 then "○"
  else if grade == some 1 then "△"
  else if grade == some 0 then "×"
  else "-"

/-! ## Concrete fixtures used by witnesses and counterexamples -/

/-- A concrete problem group value. -/
def samplePG : ProblemGroup where
  problem_group_id := some 1
  title := "t"
  description := "d"
  difficulty := "easy"
  app_scale := "small"
  mode := "both"
  created_at := none

/-- A concrete detail response value. -/
def sampleDetail : ProblemGroupDetailResponse where
  problem_group := samplePG
  problems := []

/-- A concrete sub-problem value. -/
def sampleProblem : Problem where
  problem_id := some 3
  problem_group_id := some 1
  problem_type := "db"
  order_index := 1
  problem_body := "b"

/-- A request environment whose first fetch answers 403 with the explicit
GUEST_LIMIT_REACHED error code. -/
def guestLimitEnv : ReqEnv where
  needsCsrf := true
  preCsrfOk := true
  retryCsrfOk := true
  resp1 := FetchResp.jsonApi 403 none (some { code := "GUEST_LIMIT_REACHED", message := "Guest limit reached" })
  resp2 := FetchResp.noContent

/-- A request environment whose first fetch answers a code-less 403, which
the client treats as a CSRF error and retries once. -/
def retryEnv : ReqEnv where
  needsCsrf := false
  preCsrfOk := true
  retryCsrfOk := true
  resp1 := FetchResp.jsonApi 403 none none
  resp2 := FetchResp.jsonApi 200 (some "d") none

/-- A concrete sessionStorage snapshot mixing problem-cache keys with an
unrelated key. -/
def cacheFixture : Storage :=
  [("mondai_problem_current_guest", "a"), ("other", "b"), ("mondai_problem_x", "c")]

/-! ## Theorems -/

/-- Claim C1: completion is idempotent. After a first complete for a
(user, group) pair succeeds, a second complete for the same pair also
acknowledges, adds no second Attempt row, and leaves the state exactly as
the first call left it, so the repeat is never reported as an error. -/
theorem complete_idempotent (s : CoreState) (u g : Nat)
    (h : (complete s u g).1 = CompleteResult.ack) :
    (complete (complete s u g).2 u g).1 = CompleteResult.ack ∧
    (complete (complete s u g).2 u g).2 = (complete s u g).2 := by
  by_cases hmem : (g, u) ∈ s.attempts
  · simp [complete, hmem]
  · by_cases hp : s.pointer = some g
    · simp [complete, hmem, hp]
    · exfalso
      simp [complete, hmem, hp] at h

/-- Witness for claim C1 at a concrete state with an open claim. -/
theorem complete_idempotent_witness :
    (complete (complete ⟨[], some 5, []⟩ 1 5).2 1 5).1 = CompleteResult.ack ∧
    (complete (complete ⟨[], some 5, []⟩ 1 5).2 1 5).2 = (complete ⟨[], some 5, []⟩ 1 5).2 :=
  complete_idempotent ⟨[], some 5, []⟩ 1 5 (by decide)

/-- Claim C10: difficulty parsing is total and defaulting. For every input
string or null, parseDifficulty returns one of the three difficulty
literals; it returns the input when the input is one of them, and easy for
every other string and for null. -/
theorem parseDifficulty_total_default (v : Option String) :
    (parseDifficulty v = "easy" ∨ parseDifficulty v = "medium" ∨ parseDifficulty v = "hard") ∧
    (∀ s, v = some s → (s = "easy" ∨ s = "medium" ∨ s = "hard") → parseDifficulty v = s) ∧
    (∀ s, v = some s → s ≠ "easy" → s ≠ "medium" → s ≠ "hard" → parseDifficulty v = "easy") ∧
    (v = none → parseDifficulty v = "easy") := by
  cases v with
  | none => simp [parseDifficulty]
  | some s =>
      refine ⟨?_, ?_, ?_, ?_⟩
      · by_cases h1 : s = "easy"
        · simp [parseDifficulty, h1]
        · by_cases h2 : s = "medium"
          · simp [parseDifficulty, h2]
          · by_cases h3 : s = "hard"
            · simp [parseDifficulty, h3]
            · simp [parseDifficulty, h1, h2, h3]
      · rintro t ht hor
        obtain rfl : s = t := by injection ht
        rcases hor with rfl | rfl | rfl <;> simp [parseDifficulty]
      · rintro t ht h1 h2 h3
        obtain rfl : s = t := by injection ht
        simp [parseDifficulty, h1, h2, h3]
      · intro h
        exact absurd h (by simp)

/-- Witness for claim C10: a valid literal round-trips and an invalid one
defaults. -/
theorem parseDifficulty_total_default_witness :
    parseDifficulty (some "hard") = "hard" ∧ parseDifficulty (some "extreme") = "easy" :=
  ⟨(parseDifficulty_total_default (some "hard")).2.1 "hard" rfl (Or.inr (Or.inr rfl)),
   (parseDifficulty_total_default (some "extreme")).2.2.1 "extreme" rfl
     (by decide) (by decide) (by decide)⟩

/-- Claim C7: the grade display mapping is total. In both the Result page
and the History page, grade 2 renders the full-success mark, 1 the middle
mark, 0 the failure mark, and every other value, null included, falls back
to a neutral placeholder. -/
theorem grade_display_total :
    (getGradeEmoji 2 = "◯" ∧ getGradeEmoji 1 = "△" ∧ getGradeEmoji 0 = "×" ∧
      ∀ g : Int, g ≠ 2 → g ≠ 1 → g ≠ 0 → getGradeEmoji g = "?") ∧
    (getGradeEmojiHist (some 2) = "○" ∧ getGradeEmojiHist (some 1) = "△" ∧
      getGradeEmojiHist (some 0) = "×" ∧ getGradeEmojiHist none = "-" ∧
      ∀ g : Int, g ≠ 2 → g ≠ 1 → g ≠ 0 → getGradeEmojiHist (some g) = "-") := by
  refine ⟨⟨by decide, by decide, by decide, ?_⟩, by decide, by decide, by decide, by decide, ?_⟩
  · intro g h2 h1 h0
    simp [getGradeEmoji, h2, h1, h0]
  · intro g h2 h1 h0
    simp [getGradeEmojiHist, h2, h1, h0]

/-- Witness for claim C7 at out-of-range grades. -/
theorem grade_display_total_witness :
    getGradeEmoji 5 = "?" ∧ getGradeEmojiHist (some (-1)) = "-" :=
  ⟨grade_display_total.1.2.2.2 5 (by decide) (by decide) (by decide),
   grade_display_total.2.2.2.2.2 (-1) (by decide) (by decide) (by decide)⟩

/-- Counterexample for claim C3 as stated: with a 409 from allocation and
an authenticated user whose current_problem_group_id is the non-null
number 0, the client does not resume (0 is falsy in JavaScript) and the
error is surfaced instead. -/
theorem resume_on_409_counterexample :
    (some (0 : Nat)) ≠ (none : Option Nat) ∧
    fetchProblemOnGenError (some 409) (some { user_id := 1, current_problem_group_id := some 0 })
      (fun _ => sampleDetail) = FetchOutcome.surfaced (some 409) := by
  decide

/-- Claim C3 as amended: whenever the allocation request fails with status
409 and the authenticated user has a truthy (non-null and non-zero)
current_problem_group_id, the client fetches that group with start true
and presents the converted detail as the active problem; for any failure
status other than 409 the error is surfaced to the caller. -/
theorem resume_on_409_truthy (status : Option Nat) (user : Option JsUser)
    (detailOf : Nat → ProblemGroupDetailResponse) :
    (∀ u g, user = some u → u.current_problem_group_id = some g → g ≠ 0 →
      status = some 409 →
      fetchProblemOnGenError status user detailOf =
        FetchOutcome.presented (convertDetail (detailOf g)) g true) ∧
    (status ≠ some 409 →
      fetchProblemOnGenError status user detailOf = FetchOutcome.surfaced status) := by
  constructor
  · rintro u g rfl hcur hg rfl
    simp [fetchProblemOnGenError, userCurrentGroup, hcur, hg]
  · intro hst
    rcases status with _ | n
    · simp [fetchProblemOnGenError]
    · have hne : n ≠ 409 := by
        intro h
        exact hst (by simp [h])
      simp [fetchProblemOnGenError, hne]

/-- Witness for the amended claim C3: a truthy current group resumes, a 500
is surfaced. -/
theorem resume_on_409_truthy_witness :
    fetchProblemOnGenError (some 409) (some { user_id := 1, current_problem_group_id := some 7 })
      (fun _ => sampleDetail) = FetchOutcome.presented (convertDetail sampleDetail) 7 true ∧
    fetchProblemOnGenError (some 500) none (fun _ => sampleDetail) =
      FetchOutcome.surfaced (some 500) :=
  ⟨(resume_on_409_truthy _ _ _).1 _ 7 rfl rfl (by decide) rfl,
   (resume_on_409_truthy _ _ _).2 (by decide)⟩

/-- Counterexample for claim C5 as stated: the GenerateProblemResponse
shape does not contain only problem_group and problems, since it also
carries the kind discriminator and an optional guest_token. -/
theorem generate_response_shape_counterexample :
    generateProblemResponseFields ≠ ["problem_group", "problems"] ∧
    "kind" ∈ generateProblemResponseFields ∧
    "guest_token" ∈ generateProblemResponseFields := by
  decide

/-- Claim C5 as amended: a successful allocation response consists of
exactly the kind discriminator, an optional guest_token, the problem_group
and the ordered sub-problems (each carrying optional ids, problem_type,
order_index and problem_body); no field of the response, of a problem or
of the group is a model answer or solution; and the Result page obtains
model answers only through one separate per-problem fetch each. -/
theorem generate_response_no_model_answers :
    (generateProblemResponseFields = ["kind", "guest_token", "problem_group", "problems"] ∧
      problemFields =
        ["problem_id", "problem_group_id", "problem_type", "order_index", "problem_body"] ∧
      "model_answer" ∉ generateProblemResponseFields ∧
      "model_answers" ∉ generateProblemResponseFields ∧
      "solution" ∉ generateProblemResponseFields ∧
      "model_answer" ∉ problemFields ∧ "model_answers" ∉ problemFields ∧
      "solution" ∉ problemFields ∧
      "model_answer" ∉ problemGroupFields ∧ "model_answers" ∉ problemGroupFields ∧
      "solution" ∉ problemGroupFields) ∧
    (∀ problems : List Problem,
      (fetchModelAnswersCalls problems).length = problems.length ∧
      ∀ c ∈ fetchModelAnswersCalls problems, c.1 = Endpoint.modelAnswersEp) := by
  refine ⟨by decide, ?_⟩
  intro problems
  constructor
  · simp [fetchModelAnswersCalls]
  · intro c hc
    simp [fetchModelAnswersCalls] at hc
    obtain ⟨p, _, rfl⟩ := hc
    rfl

/-- Witness for the amended claim C5 at a one-problem list. -/
theorem generate_response_no_model_answers_witness :
    ((Endpoint.modelAnswersEp, some 3) : Endpoint × Option Nat).1 = Endpoint.modelAnswersEp ∧
    (fetchModelAnswersCalls [sampleProblem]).length = 1 :=
  ⟨(generate_response_no_model_answers.2 [sampleProblem]).2 (Endpoint.modelAnswersEp, some 3)
      (by decide),
   (generate_response_no_model_answers.2 [sampleProblem]).1⟩

/-- Iterated grading leaves the Attempt rows and the ProgressPointer as
they were. -/
lemma iterate_gradeStep_invariant (grader : String → Fin 3) (answers : List String)
    (n : Nat) (s : CoreState) :
    ((gradeStep grader answers)^[n] s).attempts = s.attempts ∧
    ((gradeStep grader answers)^[n] s).pointer = s.pointer := by
  induction n generalizing s with
  | zero => exact ⟨rfl, rfl⟩
  | succ n ih =>
      rw [Function.iterate_succ_apply]
      simpa [gradeStep, gradeAnswersOp] using ih (gradeStep grader answers s)

/-- The catch branch of fetchProblem never calls the complete endpoint. -/
lemma completeEp_not_in_fetchCalls (st : Option Nat) (u : Option JsUser) :
    Endpoint.completeEp ∉ fetchProblemCalls st u := by
  unfold fetchProblemCalls
  rcases st with _ | n
  · simp
  · by_cases hn : n = 409
    · subst hn
      rcases hc : userCurrentGroup u with _ | g
      · simp
      · by_cases hg : g = 0
        · subst hg; simp
        · simp [hg]
    · simp [hn]

/-- Claim C2: grading is decoupled from completion. Any number of grading
calls leaves the Attempt rows and the requester claim unchanged; in the
client, submitting answers calls at most the grade endpoint and navigates
only to the result page, and the complete endpoint is called solely by the
explicit finish action. -/
theorem grading_decoupled_from_completion :
    (∀ (grader : String → Fin 3) (answers : List String) (n : Nat) (s : CoreState),
      ((gradeStep grader answers)^[n] s).attempts = s.attempts ∧
      ((gradeStep grader answers)^[n] s).pointer = s.pointer) ∧
    (∀ h a : Bool, handleSubmitCalls h a = [] ∨ handleSubmitCalls h a = [Endpoint.gradeEp]) ∧
    (∀ h a ok : Bool,
      handleSubmitNav h a ok = none ∨ handleSubmitNav h a ok = some "/result") ∧
    (∀ act : ClientAction, Endpoint.completeEp ∈ actionCalls act →
      ∃ auth ok, act = ClientAction.finish auth ok) := by
  refine ⟨iterate_gradeStep_invariant, ?_, ?_, ?_⟩
  · intro h a
    cases h <;> cases a <;> simp [handleSubmitCalls]
  · intro h a ok
    cases h <;> cases a <;> cases ok <;> simp [handleSubmitNav]
  · intro act hmem
    cases act with
    | submit h a =>
        exfalso
        cases h <;> cases a <;> simp [actionCalls, handleSubmitCalls] at hmem
    | finish auth ok => exact ⟨auth, ok, rfl⟩
    | fetchProb st u =>
        exact absurd hmem (completeEp_not_in_fetchCalls st u)

/-- Witness for claim C2: three grading calls leave a concrete claim in
place, and the finish action is the action that carries the complete
endpoint. -/
theorem grading_decoupled_from_completion_witness :
    ((gradeStep (fun _ => (2 : Fin 3)) ["a"])^[3] ⟨[], some 1, []⟩).pointer = some 1 ∧
    (∃ auth ok, ClientAction.finish true true = ClientAction.finish auth ok) :=
  ⟨(grading_decoupled_from_completion.1 (fun _ => (2 : Fin 3)) ["a"] 3 ⟨[], some 1, []⟩).2,
   grading_decoupled_from_completion.2.2.2 (ClientAction.finish true true) (by decide)⟩

/-- A filtered list satisfies the predicate it was filtered by. -/
lemma all_filter_self (p : String × String → Bool) (l : List (String × String)) :
    (l.filter p).all p = true := by
  simp only [List.all_eq_true, List.mem_filter]
  intro a ha
  exact ha.2

/-- Claim C4: successful completion clears the requester claim and failed
completion changes nothing. When completeProblemGroup resolves the cached
current-problem entry is gone, a guest has guestProblemGroupId cleared,
and a user has refreshUser invoked; when it rejects, the storage, the
guest group id and the navigation state are all left as they were. -/
theorem handleComplete_atomic (st : ClientState) (isAuth : Bool) (userId : Nat)
    (refreshOk : Bool) :
    ((handleComplete st isAuth userId true refreshOk).storage.all
        (fun kv => kv.1 != currentCacheKey isAuth userId) = true ∧
      (isAuth = false →
        (handleComplete st isAuth userId true refreshOk).guestProblemGroupId = none) ∧
      (isAuth = true →
        (handleComplete st isAuth userId true refreshOk).refreshCalled = true)) ∧
    ((handleComplete st isAuth userId false refreshOk).storage = st.storage ∧
      (handleComplete st isAuth userId false refreshOk).guestProblemGroupId =
        st.guestProblemGroupId ∧
      (handleComplete st isAuth userId false refreshOk).navigatedTo = st.navigatedTo) := by
  cases isAuth <;> cases refreshOk <;>
    simp [handleComplete, removeItem, all_filter_self]

/-- A concrete client state for the C4 witness. -/
def clientFixture : ClientState where
  storage := cacheFixture
  guestProblemGroupId := some 9
  navigatedTo := none
  refreshCalled := false
  alerted := false

/-- Witness for claim C4 at a concrete client state. -/
theorem handleComplete_atomic_witness :
    (handleComplete clientFixture false 0 true true).guestProblemGroupId = none ∧
    (handleComplete clientFixture true 7 true true).refreshCalled = true :=
  ⟨(handleComplete_atomic clientFixture false 0 true).1.2.1 rfl,
   (handleComplete_atomic clientFixture true 7 true).1.2.2 rfl⟩

/-- Claim C6: an explicit non-CSRF error code is never consumed by the
retry machinery. For any status, a present error code other than the two
CSRF codes, other than UNKNOWN_ERROR and non-empty makes isCsrfError
false, 403 included, and the request function then throws an ApiError
carrying exactly that code and message after a single fetch instead of
refetching a CSRF token and retrying. -/
theorem guest_limit_not_retried (e : ReqEnv) (s : Nat) (d : Option String) (c m : String)
    (hresp : e.resp1 = FetchResp.jsonApi s d (some { code := c, message := m }))
    (hpre : e.needsCsrf = false ∨ e.preCsrfOk = true)
    (hc1 : c ≠ "CSRF_TOKEN_MISSING") (hc2 : c ≠ "CSRF_TOKEN_INVALID")
    (hc3 : c ≠ "UNKNOWN_ERROR") (hc4 : c ≠ "") (hm : m ≠ "") :
    isCsrfError s (some c) = false ∧
    request e = (ReqOutcome.apiError c m (some s), 1) := by
  have hcsrf : isCsrfError s (some c) = false := by
    by_cases hs : s = 403
    · subst hs
      simp [isCsrfError, jsFalsyStr, hc1, hc2, hc3, hc4]
    · simp [isCsrfError, hs]
  have hatt : attempt e.resp1 false =
      AttemptResult.done (ReqOutcome.apiError c m (some s)) := by
    rw [hresp]
    simp [attempt, hcsrf, strOrElse, hc4, hm]
  refine ⟨hcsrf, ?_⟩
  unfold request
  rcases hpre with h | h <;> simp [h, hatt]

/-- Witness for claim C6 at GUEST_LIMIT_REACHED on a 403. -/
theorem guest_limit_not_retried_witness :
    isCsrfError 403 (some "GUEST_LIMIT_REACHED") = false ∧
    request guestLimitEnv =
      (ReqOutcome.apiError "GUEST_LIMIT_REACHED" "Guest limit reached" (some 403), 1) :=
  guest_limit_not_retried guestLimitEnv 403 none "GUEST_LIMIT_REACHED" "Guest limit reached"
    rfl (Or.inr rfl) (by decide) (by decide) (by decide) (by decide) (by decide)

/-- A pass of the request body with the isRetry flag set never signals the
retry path again: both retry branches are guarded by the flag being
false. -/
lemma attempt_true_ne_retry (r : FetchResp) : attempt r true ≠ AttemptResult.retry := by
  cases r with
  | noContent => simp [attempt]
  | networkError => simp [attempt]
  | nonJson s b => simp [attempt]
  | jsonApi s d e =>
      simp only [attempt]
      split <;> simp

/-- Claim C8: the request function retries at most once and terminates.
A pass with the isRetry flag set never signals retry, so every
caller-initiated request issues at most two fetches of the endpoint before
resolving data or throwing an ApiError. -/
theorem request_at_most_two_fetches :
    (∀ r : FetchResp, attempt r true ≠ AttemptResult.retry) ∧
    (∀ e : ReqEnv, (request e).2 ≤ 2) := by
  refine ⟨attempt_true_ne_retry, ?_⟩
  intro e
  unfold request
  split
  · simp
  · split
    · simp
    · split
      · simp
      · split
        · simp
        · rename_i heq
          exact absurd heq (attempt_true_ne_retry _)

/-- Witness for claim C8: a request that does take the automatic retry
path still issues no more than two fetches, and a flagged pass never
retries. -/
theorem request_at_most_two_fetches_witness :
    (request retryEnv).2 ≤ 2 ∧ attempt FetchResp.noContent true ≠ AttemptResult.retry :=
  ⟨request_at_most_two_fetches.2 retryEnv, request_at_most_two_fetches.1 FetchResp.noContent⟩

/-- Folding removeItem over a snapshot of keys removes exactly the entries
whose key is in the snapshot and matches the problem-cache pattern. -/
lemma foldl_removeItem_eq_filter (ks : List String) (s : Storage) :
    ks.foldl (fun acc k => if jsStartsWith k "mondai_problem_" then removeItem acc k else acc) s =
      s.filter (fun kv => !(decide (kv.1 ∈ ks) && jsStartsWith kv.1 "mondai_problem_")) := by
  induction ks generalizing s with
  | nil => simp
  | cons k ks ih =>
      rw [List.foldl_cons, ih]
      by_cases hk : jsStartsWith k "mondai_problem_"
      · simp only [hk, if_true, removeItem, List.filter_filter]
        refine List.filter_congr ?_
        intro kv _
        by_cases hkv : kv.1 = k
        · simp [hkv, hk]
        · simp [hkv]
      · simp only [hk, if_false, Bool.false_eq_true]
        refine List.filter_congr ?_
        intro kv _
        by_cases hkv : kv.1 = k
        · simp [hkv, hk]
        · simp [hkv]

/-- Claim C9: clearProblemCache removes exactly the sessionStorage entries
whose key starts with mondai_problem_. The result is the filter of the
snapshot by that pattern: no matching key remains, and every entry with a
non-matching key is untouched. -/
theorem clearProblemCache_exact (store : Storage) :
    clearProblemCache store =
      store.filter (fun kv => !(jsStartsWith kv.1 "mondai_problem_")) ∧
    (∀ kv ∈ clearProblemCache store, jsStartsWith kv.1 "mondai_problem_" = false) ∧
    (∀ kv : String × String, jsStartsWith kv.1 "mondai_problem_" = false →
      (kv ∈ clearProblemCache store ↔ kv ∈ store)) := by
  have hmain : clearProblemCache store =
      store.filter (fun kv => !(jsStartsWith kv.1 "mondai_problem_")) := by
    rw [clearProblemCache, foldl_removeItem_eq_filter]
    refine List.filter_congr ?_
    intro kv hkv
    have hmem : kv.1 ∈ store.map Prod.fst := List.mem_map_of_mem Prod.fst hkv
    simp [hmem]
  refine ⟨hmain, ?_, ?_⟩
  · intro kv hkv
    rw [hmain] at hkv
    have := List.of_mem_filter hkv
    simpa using this
  · intro kv hsw
    rw [hmain]
    constructor
    · exact fun h => (List.mem_filter.mp h).1
    · intro h
      exact List.mem_filter.mpr ⟨h, by simp [hsw]⟩

/-- Witness for claim C9: an unrelated entry of a concrete snapshot
survives the cache clear. -/
theorem clearProblemCache_exact_witness :
    ("other", "b") ∈ clearProblemCache cacheFixture :=
  ((clearProblemCache_exact cacheFixture).2.2 ("other", "b") (by decide)).mpr (by decide)

end Mondai
